import Mathlib

/-!
Verification of the camera visual-servo control client
(`scripts/control_client.py`): a per-axis PID position controller with
output saturation, a fixed-rate convergence-checked control loop, and an
asynchronous goal-dispatch protocol.

Real arithmetic of the Python source is embedded as exact rationals (ℚ).
The per-axis PID engine comes from the external `simple_pid` library and
is therefore modelled from the specification of the AxisController
component; everything else is translated directly from the source.
-/

/-! ## Module-level constants (control_client.py lines 15-23) -/

/-- Proportional gain `KP = 0.01`. -/
def KP : ℚ := 1/100

/-- Integral gain `KI = 0.0`. -/
def KI : ℚ := 0

/-- Derivative gain `KD = 0.01`. -/
def KD : ℚ := 1/100

/-- Planar convergence threshold `ERROR_THRESHOLD = 0.02` metres. -/
def ERROR_THRESHOLD : ℚ := 2/100

/-- Depth convergence threshold `Z_THRESHOLD = 0.20` metres. -/
def Z_THRESHOLD : ℚ := 20/100

/-- PID sample period set in `CameraController.__init__`: `0.0333`. -/
def SAMPLE_TIME : ℚ := 333/10000

/-- Saturation bound set in `CameraController.__init__`: `clip_val = 0.1`. -/
def CLIP_VAL : ℚ := 1/10

/-! ## Geometry messages -/

/-- A 3D point (`geometry_msgs/Point`). -/
structure Point where
  x : ℚ
  y : ℚ
  z : ℚ
deriving DecidableEq, Repr

/-- A quaternion (`geometry_msgs/Quaternion`); message fields default to 0. -/
structure Quat where
  x : ℚ
  y : ℚ
  z : ℚ
  w : ℚ
deriving DecidableEq, Repr

/-- A pose (`geometry_msgs/Pose`): position plus orientation. -/
structure Pose where
  position : Point
  orientation : Quat
deriving DecidableEq, Repr

/-- The `GoToPose.Goal` action request: carries a pose. -/
structure GoalMsg where
  pose : Pose
deriving DecidableEq, Repr

/-- A detection marker; only its `pose.position` is consumed by the node. -/
structure Marker where
  pose_position : Point
deriving DecidableEq, Repr

/-- A `visualization_msgs/MarkerArray` detection notification. -/
structure MarkerArray where
  markers : List Marker
deriving DecidableEq, Repr

/-! ## Per-axis PID state and computation -/

/-- Modelled from the spec: the per-axis PID state (AxisState) of the
external `simple_pid.PID` objects, absent from `src/`.  Fields follow
section 3 of the specification: gains, setpoint, integral accumulator,
previous-error memory, last computed output and the sample period. -/
structure PID where
  kp : ℚ
  ki : ℚ
  kd : ℚ
  setpoint : ℚ
  integral : ℚ
  prevError : ℚ
  lastOutput : ℚ
  sample_time : ℚ
deriving DecidableEq, Repr

/-- Modelled from the spec: one PID evaluation (`pid(measurement)` of the
external `simple_pid` library), per AxisController section 4.1:
error = setpoint − measurement; integral += error × sample_period;
derivative = (error − previous_error) / sample_period;
output = gain_p×error + gain_i×integral + gain_d×derivative;
previous_error = error.  Each control tick elapses exactly one sample
period, so every call performs the full update. -/
def PID.compute (p : PID) (measurement : ℚ) : PID × ℚ :=
  let error := p.setpoint - measurement
  let integral := p.integral + error * p.sample_time
  let derivative := (error - p.prevError) / p.sample_time
  let output := p.kp * error + p.ki * integral + p.kd * derivative
  ({ p with integral := integral, prevError := error, lastOutput := output },
   output)

/-- Modelled from the spec: a freshly constructed `PID(kp, ki, kd)` with
setpoint 0 and empty integral/derivative memory. -/
def PID.start (kp ki kd : ℚ) : PID :=
  { kp := kp, ki := ki, kd := kd, setpoint := 0,
    integral := 0, prevError := 0, lastOutput := 0, sample_time := 0 }

/-! ## CameraController (control_client.py lines 27-69) -/

/-- The camera controller: current commanded position, one PID per axis,
and the saturation bound (`CameraController.__init__`). -/
structure CameraController where
  position : Point
  pid_x : PID
  pid_y : PID
  pid_z : PID
  clip_val : ℚ
deriving DecidableEq, Repr

/-- `CameraController.__init__`: position (0,0,0); PID gains (KP, KI, KD)
per axis; sample time 0.0333 per axis; clip value 0.1. -/
def CameraController.start : CameraController :=
  { position := { x := 0, y := 0, z := 0 },
    pid_x := { PID.start KP KI KD with sample_time := SAMPLE_TIME },
    pid_y := { PID.start KP KI KD with sample_time := SAMPLE_TIME },
    pid_z := { PID.start KP KI KD with sample_time := SAMPLE_TIME },
    clip_val := CLIP_VAL }

/-- `CameraController.set_new_goal`: assigns each axis PID's `setpoint`
to the corresponding coordinate of the target (lines 42-47). -/
def CameraController.set_new_goal (c : CameraController) (target_position : Point) :
    CameraController :=
  { c with
    pid_x := { c.pid_x with setpoint := target_position.x },
    pid_y := { c.pid_y with setpoint := target_position.y },
    pid_z := { c.pid_z with setpoint := target_position.z } }

/-- `CameraController.get_position_error` (lines 49-50): per-axis absolute
difference between current position and setpoint. -/
def CameraController.get_position_error (c : CameraController) : ℚ × ℚ × ℚ :=
  (|c.position.x - c.pid_x.setpoint|,
   |c.position.y - c.pid_y.setpoint|,
   |c.position.z - c.pid_z.setpoint|)

/-- Saturation `max(min(v, clip_val), -clip_val)` (lines 59-61). -/
def clip (v c : ℚ) : ℚ := max (min v c) (-c)

/-- `CameraController.update_position` (lines 52-66): evaluate each axis
PID at the current position, saturate the outputs to `±clip_val`, then
advance each coordinate by `clipped_output × sample_time`. -/
def CameraController.update_position (c : CameraController) : CameraController :=
  let rx := c.pid_x.compute c.position.x
  let ry := c.pid_y.compute c.position.y
  let rz := c.pid_z.compute c.position.z
  let velocity_x := clip rx.2 c.clip_val
  let velocity_y := clip ry.2 c.clip_val
  let velocity_z := clip rz.2 c.clip_val
  { c with
    pid_x := rx.1, pid_y := ry.1, pid_z := rz.1,
    position :=
      { x := c.position.x + velocity_x * rx.1.sample_time,
        y := c.position.y + velocity_y * ry.1.sample_time,
        z := c.position.z + velocity_z * rz.1.sample_time } }

example :
    (CameraController.start.set_new_goal ⟨1, 0, 0⟩).get_position_error
      = (1, 0, 0) := by
  norm_num [CameraController.get_position_error, CameraController.set_new_goal,
    CameraController.start, PID.start, KP, KI, KD, SAMPLE_TIME, CLIP_VAL]

/-! ## ControllerNode (control_client.py lines 73-179)

The node's externally visible actions on the messaging substrate are
recorded as an `Effect` trace; the substrate itself (rclpy) is out of
scope.  Timers registered with the node are tracked by identifier:
`create_timer` registers a fresh one, and only an explicit `cancel()`
deactivates it — dropping the Python reference in
`self.camera_controller_timer` does not. -/

/-- An externally visible action performed by a callback. -/
inductive Effect where
  | lookupTransform
  | cancelTimer (id : Nat)
  | publishGoal (x y z : ℚ)
  | waitForServer (timeout_sec : ℚ) (serverReady : Bool)
  | sendGoalAsync (goal : GoalMsg)
deriving DecidableEq, Repr

/-- Outcome of the external TF2 `lookup_transform` collaborator: either a
transform to apply to the camera-frame point, or one of the
Lookup/Connectivity/Extrapolation failures. -/
inductive TransformResult where
  | ok (transform : Point → Point)
  | fail

/-- Mutable state of the `ControllerNode`: the camera controller, the
timer reference stored in `self.camera_controller_timer`, the set of
timers currently registered and active on the node, and a counter
producing fresh timer identifiers. -/
structure NodeState where
  camera_controller : CameraController
  camera_controller_timer : Option Nat
  activeTimers : List Nat
  nextTimerId : Nat
deriving DecidableEq, Repr

/-- `ControllerNode.__init__` (lines 75-97): fresh camera controller, no
timer yet. -/
def NodeState.start : NodeState :=
  { camera_controller := CameraController.start,
    camera_controller_timer := none,
    activeTimers := [],
    nextTimerId := 0 }

/-- `ControllerNode.detection_callback` (lines 99-121): if the marker list
is non-empty, take the first marker, look up the world transform, and on
success set the transformed point as the new goal and create a fresh
control-loop timer (overwriting the stored reference without cancelling
any previously created timer).  On transform failure, or when the marker
list is empty, the state is unchanged. -/
def ControllerNode.detection_callback (st : NodeState) (msg : MarkerArray)
    (tf : TransformResult) : NodeState × List Effect :=
  match msg.markers with
  | [] => (st, [])
  | marker :: _ =>
    let bbox_center := marker.pose_position
    match tf with
    | TransformResult.fail => (st, [Effect.lookupTransform])
    | TransformResult.ok transform =>
      let world_point := transform bbox_center
      ({ st with
           camera_controller := st.camera_controller.set_new_goal world_point,
           camera_controller_timer := some st.nextTimerId,
           activeTimers := st.nextTimerId :: st.activeTimers,
           nextTimerId := st.nextTimerId + 1 },
       [Effect.lookupTransform])

/-- The convergence test of `ControllerNode.control_loop` (line 126):
`abs(err_x) < ERROR_THRESHOLD and abs(err_y) < ERROR_THRESHOLD and
abs(err_z) < Z_THRESHOLD`, on the errors returned by
`get_position_error`. -/
def ControllerNode.converged (c : CameraController) : Prop :=
  |c.get_position_error.1| < ERROR_THRESHOLD ∧
  |c.get_position_error.2.1| < ERROR_THRESHOLD ∧
  |c.get_position_error.2.2| < Z_THRESHOLD

instance (c : CameraController) : Decidable (ControllerNode.converged c) := by
  unfold ControllerNode.converged
  infer_instance

/-- `ControllerNode.send_goal` (lines 149-160): build a `GoToPose` goal
with the given position and orientation `w = 1.0` (other quaternion
fields keep their message default 0), wait up to 1 second for the action
server — discarding the result of the wait — then send the goal
asynchronously.  `serverReady` records the outcome of the bounded wait. -/
def ControllerNode.send_goal (serverReady : Bool) (x y z : ℚ) : List Effect :=
  [Effect.waitForServer 1 serverReady,
   Effect.sendGoalAsync
     { pose := { position := { x := x, y := y, z := z },
                 orientation := { x := 0, y := 0, z := 0, w := 1 } } }]

/-- `ControllerNode.control_loop` (lines 123-147): if the position errors
pass the convergence test, cancel the stored timer and return; otherwise
run one `update_position` step, publish the updated position as the goal
coordinates, and send it to the action server. -/
def ControllerNode.control_loop (serverReady : Bool) (st : NodeState) :
    NodeState × List Effect :=
  if ControllerNode.converged st.camera_controller then
    match st.camera_controller_timer with
    | some t =>
      ({ st with activeTimers := st.activeTimers.filter (fun i => i != t) },
       [Effect.cancelTimer t])
    | none => (st, [])
  else
    let cc := st.camera_controller.update_position
    ({ st with camera_controller := cc },
     Effect.publishGoal cc.position.x cc.position.y cc.position.z ::
       ControllerNode.send_goal serverReady cc.position.x cc.position.y cc.position.z)

/-! ## Goal-dispatch outcome machine (lines 162-179)

Each dispatched request is tracked from `Pending` through the accept /
reject response and, if accepted, the terminal result. -/

/-- Outcome of a dispatched goal request. -/
inductive GoalOutcome where
  | pending
  | accepted
  | rejected
  | succeeded
  | failed
deriving DecidableEq, Repr

/-- An asynchronous event delivered for a dispatched request: the
accept/reject response, or the terminal result. -/
inductive GoalEvent where
  | response (accepted : Bool)
  | result (success : Bool)
deriving DecidableEq, Repr

/-- `ControllerNode.goal_response_callback` (lines 162-171): on rejection,
log and return — no result continuation is registered; on acceptance,
register `get_result_callback` as the result continuation.  Returns the
request's outcome and whether a result continuation was registered. -/
def ControllerNode.goal_response_callback (accepted : Bool) : GoalOutcome × Bool :=
  if accepted then (GoalOutcome.accepted, true) else (GoalOutcome.rejected, false)

/-- `ControllerNode.get_result_callback` (lines 173-179): the terminal
outcome reported for the result. -/
def ControllerNode.get_result_callback (success : Bool) : GoalOutcome :=
  if success then GoalOutcome.succeeded else GoalOutcome.failed

/-- One transition of a dispatched request's outcome.  The two callbacks
are the only code acting on a request: the response callback fires on a
pending request, the result callback only on an accepted one (it is
registered only there); in every other state no callback is registered,
so the outcome stays put. -/
def goalStep : GoalOutcome → GoalEvent → GoalOutcome
  | GoalOutcome.pending, GoalEvent.response a =>
      (ControllerNode.goal_response_callback a).1
  | GoalOutcome.accepted, GoalEvent.result s =>
      ControllerNode.get_result_callback s
  | s, _ => s

/-! ## Shared lemmas -/

/-- The saturated value never exceeds the (nonnegative) clip bound in
magnitude. -/
theorem clip_abs_le (v c : ℚ) (hc : 0 ≤ c) : |clip v c| ≤ c := by
  unfold clip
  rw [abs_le]
  refine ⟨le_max_right _ _, max_le (min_le_right _ _) (by linarith)⟩

/-- A PID evaluation never changes the axis's sample period. -/
theorem PID.compute_sample_time (p : PID) (m : ℚ) :
    ((p.compute m).1).sample_time = p.sample_time := rfl

/-- A node state whose controller already satisfies the convergence test,
with one active registered timer. -/
def convergedNode : NodeState :=
  { camera_controller := CameraController.start,
    camera_controller_timer := some 0,
    activeTimers := [0],
    nextTimerId := 1 }

/-- The fresh controller (all setpoints and coordinates zero) passes the
convergence test. -/
theorem converged_start : ControllerNode.converged CameraController.start := by
  norm_num [ControllerNode.converged, CameraController.get_position_error,
    CameraController.start, PID.start, ERROR_THRESHOLD, Z_THRESHOLD]

/-! ## Claim theorems -/

/-- C1: on every position-update tick, for each axis the control output
actually applied to the position is `clip(raw PID output)` and its
magnitude never exceeds `clip_val = 0.1`, regardless of the raw PID
output or gain magnitudes. -/
theorem update_position_saturated (c : CameraController)
    (hclip : c.clip_val = 1/10) :
    ∃ vx vy vz : ℚ,
      |vx| ≤ 1/10 ∧ |vy| ≤ 1/10 ∧ |vz| ≤ 1/10 ∧
      (c.update_position).position.x = c.position.x + vx * c.pid_x.sample_time ∧
      (c.update_position).position.y = c.position.y + vy * c.pid_y.sample_time ∧
      (c.update_position).position.z = c.position.z + vz * c.pid_z.sample_time := by
  refine ⟨clip (c.pid_x.compute c.position.x).2 c.clip_val,
          clip (c.pid_y.compute c.position.y).2 c.clip_val,
          clip (c.pid_z.compute c.position.z).2 c.clip_val,
          ?_, ?_, ?_, rfl, rfl, rfl⟩ <;>
    · rw [← hclip]
      exact clip_abs_le _ _ (by rw [hclip]; norm_num)

/-- Witness for C1 at the freshly initialised controller. -/
theorem update_position_saturated_witness :
    CameraController.start.clip_val = 1/10 ∧
    ∃ vx vy vz : ℚ,
      |vx| ≤ 1/10 ∧ |vy| ≤ 1/10 ∧ |vz| ≤ 1/10 ∧
      (CameraController.start.update_position).position.x
        = CameraController.start.position.x + vx * CameraController.start.pid_x.sample_time ∧
      (CameraController.start.update_position).position.y
        = CameraController.start.position.y + vy * CameraController.start.pid_y.sample_time ∧
      (CameraController.start.update_position).position.z
        = CameraController.start.position.z + vz * CameraController.start.pid_z.sample_time :=
  ⟨rfl, update_position_saturated CameraController.start rfl⟩

/-- C2: the convergence test is exactly
`|err_x| < 0.02 ∧ |err_y| < 0.02 ∧ |err_z| < 0.20`, the z threshold being
the distinct larger one; a state with errors (0, 0, 0.15) is reported
converged, one with depth error 0.25 is not. -/
theorem converged_iff :
    (∀ c : CameraController,
        ControllerNode.converged c ↔
          (|c.position.x - c.pid_x.setpoint| < 2/100 ∧
           |c.position.y - c.pid_y.setpoint| < 2/100 ∧
           |c.position.z - c.pid_z.setpoint| < 20/100)) ∧
    ControllerNode.converged (CameraController.start.set_new_goal ⟨0, 0, 15/100⟩) ∧
    ¬ ControllerNode.converged (CameraController.start.set_new_goal ⟨0, 0, 25/100⟩) := by
  refine ⟨fun c => ?_, ?_, ?_⟩
  · unfold ControllerNode.converged CameraController.get_position_error
      ERROR_THRESHOLD Z_THRESHOLD
    rw [abs_abs, abs_abs, abs_abs]
  · norm_num [ControllerNode.converged, CameraController.get_position_error,
      CameraController.set_new_goal, CameraController.start, PID.start,
      ERROR_THRESHOLD, Z_THRESHOLD, abs_of_nonneg]
  · norm_num [ControllerNode.converged, CameraController.get_position_error,
      CameraController.set_new_goal, CameraController.start, PID.start,
      ERROR_THRESHOLD, Z_THRESHOLD, abs_of_nonneg]

/-- C3: a control tick whose error already passes the convergence test
issues exactly one timer-cancel as its whole effect trace — so it
publishes no position and sends no goal — and leaves the camera
controller (position and all PID state) unchanged. -/
theorem converged_tick_cancels_only (serverReady : Bool) (st : NodeState)
    (t : Nat) (htimer : st.camera_controller_timer = some t)
    (hconv : ControllerNode.converged st.camera_controller) :
    (ControllerNode.control_loop serverReady st).2 = [Effect.cancelTimer t] ∧
    (ControllerNode.control_loop serverReady st).1.camera_controller
      = st.camera_controller ∧
    (ControllerNode.control_loop serverReady st).1.camera_controller_timer
      = st.camera_controller_timer := by
  unfold ControllerNode.control_loop
  rw [if_pos hconv, htimer]
  exact ⟨rfl, rfl, rfl⟩

/-- Witness for C3 at a converged node state with one active timer. -/
theorem converged_tick_cancels_only_witness :
    convergedNode.camera_controller_timer = some 0 ∧
    ControllerNode.converged convergedNode.camera_controller ∧
    ((ControllerNode.control_loop true convergedNode).2 = [Effect.cancelTimer 0] ∧
     (ControllerNode.control_loop true convergedNode).1.camera_controller
       = convergedNode.camera_controller ∧
     (ControllerNode.control_loop true convergedNode).1.camera_controller_timer
       = convergedNode.camera_controller_timer) :=
  ⟨rfl, converged_start,
   converged_tick_cancels_only true convergedNode 0 rfl converged_start⟩

/-- C4 counterexample: one position-update step does change something
besides the position — at a controller with setpoint 1 and position 0,
the x-axis PID's previous-error memory moves from 0 to 1. -/
theorem update_position_changes_pid_memory :
    (CameraController.start.set_new_goal ⟨1, 0, 0⟩).update_position.pid_x.prevError
      ≠ (CameraController.start.set_new_goal ⟨1, 0, 0⟩).pid_x.prevError := by
  norm_num [CameraController.update_position, CameraController.set_new_goal,
    CameraController.start, PID.compute, PID.start, clip,
    KP, KI, KD, SAMPLE_TIME, CLIP_VAL]

/-- C4 (amended): one position-update step advances each coordinate by
the clipped PID output times that axis's sample period, updates each
axis PID's internal memory (integral accumulator, previous error, last
output), and changes nothing else: the clip value and each PID's gains,
setpoint and sample period are untouched. -/
theorem update_position_effect (c : CameraController) :
    (c.update_position).position.x
      = c.position.x
        + clip (c.pid_x.compute c.position.x).2 c.clip_val * c.pid_x.sample_time ∧
    (c.update_position).position.y
      = c.position.y
        + clip (c.pid_y.compute c.position.y).2 c.clip_val * c.pid_y.sample_time ∧
    (c.update_position).position.z
      = c.position.z
        + clip (c.pid_z.compute c.position.z).2 c.clip_val * c.pid_z.sample_time ∧
    (∃ i p o, (c.update_position).pid_x
        = { c.pid_x with integral := i, prevError := p, lastOutput := o }) ∧
    (∃ i p o, (c.update_position).pid_y
        = { c.pid_y with integral := i, prevError := p, lastOutput := o }) ∧
    (∃ i p o, (c.update_position).pid_z
        = { c.pid_z with integral := i, prevError := p, lastOutput := o }) ∧
    (c.update_position).clip_val = c.clip_val :=
  ⟨rfl, rfl, rfl, ⟨_, _, _, rfl⟩, ⟨_, _, _, rfl⟩, ⟨_, _, _, rfl⟩, rfl⟩

/-- C5: the single-active-timer invariant fails on the code — two
successive successful detections each register a fresh control-loop
timer without cancelling the previous one, leaving two timers active
while only the newest is stored. -/
theorem duplicate_timers_after_two_detections :
    ((ControllerNode.detection_callback
        (ControllerNode.detection_callback NodeState.start
          ⟨[⟨⟨1, 1, 1⟩⟩]⟩ (TransformResult.ok id)).1
        ⟨[⟨⟨2, 2, 2⟩⟩]⟩ (TransformResult.ok id)).1).activeTimers = [1, 0] ∧
    1 < ((ControllerNode.detection_callback
        (ControllerNode.detection_callback NodeState.start
          ⟨[⟨⟨1, 1, 1⟩⟩]⟩ (TransformResult.ok id)).1
        ⟨[⟨⟨2, 2, 2⟩⟩]⟩ (TransformResult.ok id)).1).activeTimers.length ∧
    ((ControllerNode.detection_callback
        (ControllerNode.detection_callback NodeState.start
          ⟨[⟨⟨1, 1, 1⟩⟩]⟩ (TransformResult.ok id)).1
        ⟨[⟨⟨2, 2, 2⟩⟩]⟩ (TransformResult.ok id)).1).camera_controller_timer
      = some 1 :=
  ⟨rfl, Nat.one_lt_two, rfl⟩

/-- C6: `set_new_goal` sets each axis PID's setpoint to the matching
target coordinate and modifies nothing else — position, integral
accumulators, previous-error and last-output memories, gains, sample
periods and the clip value are all preserved — and integral accumulated
before the retarget feeds directly into the next PID evaluation. -/
theorem set_new_goal_effect (c : CameraController) (t : Point) :
    (c.set_new_goal t).pid_x.setpoint = t.x ∧
    (c.set_new_goal t).pid_y.setpoint = t.y ∧
    (c.set_new_goal t).pid_z.setpoint = t.z ∧
    (c.set_new_goal t).position = c.position ∧
    (c.set_new_goal t).pid_x = { c.pid_x with setpoint := t.x } ∧
    (c.set_new_goal t).pid_y = { c.pid_y with setpoint := t.y } ∧
    (c.set_new_goal t).pid_z = { c.pid_z with setpoint := t.z } ∧
    (c.set_new_goal t).clip_val = c.clip_val ∧
    (c.set_new_goal t).pid_x.integral = c.pid_x.integral ∧
    (c.set_new_goal t).pid_y.integral = c.pid_y.integral ∧
    (c.set_new_goal t).pid_z.integral = c.pid_z.integral ∧
    (c.set_new_goal t).pid_x.prevError = c.pid_x.prevError ∧
    (c.set_new_goal t).pid_y.prevError = c.pid_y.prevError ∧
    (c.set_new_goal t).pid_z.prevError = c.pid_z.prevError ∧
    (∀ m : ℚ, (((c.set_new_goal t).pid_x.compute m).1).integral
        = c.pid_x.integral + (t.x - m) * c.pid_x.sample_time) :=
  ⟨rfl, rfl, rfl, rfl, rfl, rfl, rfl, rfl, rfl, rfl, rfl, rfl, rfl, rfl,
   fun _ => rfl⟩

/-- The C7 scenario controller: position (0,0,0), x setpoint 1, the
gains the claim specifies (only Kp = 0.01 is nonzero), sample period
0.0333 and clip value 0.1. -/
def proportionalScenario : CameraController :=
  { position := { x := 0, y := 0, z := 0 },
    pid_x := { kp := 1/100, ki := 0, kd := 0, setpoint := 1,
               integral := 0, prevError := 0, lastOutput := 0,
               sample_time := 333/10000 },
    pid_y := { kp := 1/100, ki := 0, kd := 0, setpoint := 0,
               integral := 0, prevError := 0, lastOutput := 0,
               sample_time := 333/10000 },
    pid_z := { kp := 1/100, ki := 0, kd := 0, setpoint := 0,
               integral := 0, prevError := 0, lastOutput := 0,
               sample_time := 333/10000 },
    clip_val := 1/10 }

/-- C7: on the first tick of the proportional scenario the raw x-axis PID
output is 0.01, saturation leaves it at min(0.01 × 1, 0.1) = 0.01, and
the tick moves position_x to 0.01 × 0.0333 = 0.000333. -/
theorem first_tick_position_x :
    (proportionalScenario.pid_x.compute proportionalScenario.position.x).2
      = 1/100 ∧
    clip (proportionalScenario.pid_x.compute proportionalScenario.position.x).2
        proportionalScenario.clip_val
      = min (1/100 * 1) (1/10) ∧
    (proportionalScenario.update_position).position.x = 333/1000000 := by
  refine ⟨?_, ?_, ?_⟩ <;>
    norm_num [proportionalScenario, CameraController.update_position,
      PID.compute, clip, min_def, max_def]

/-- C8: every `send_goal` call emits a goal request carrying exactly the
given (x, y, z) position and the fixed unit quaternion (0, 0, 0, 1), and
it does so for either outcome of the bounded wait for the server — a
wait timeout does not abort the send. -/
theorem send_goal_always_sends (serverReady : Bool) (x y z : ℚ) :
    Effect.sendGoalAsync
        { pose := { position := { x := x, y := y, z := z },
                    orientation := { x := 0, y := 0, z := 0, w := 1 } } }
      ∈ ControllerNode.send_goal serverReady x y z := by
  simp [ControllerNode.send_goal]

/-- C9: goal outcomes are monotonic — a rejection registers no result
continuation and is terminal, and the two result outcomes are terminal;
no event moves a request out of Rejected, Succeeded or Failed. -/
theorem goal_outcome_monotonic :
    (ControllerNode.goal_response_callback false).1 = GoalOutcome.rejected ∧
    (ControllerNode.goal_response_callback false).2 = false ∧
    (∀ e, goalStep GoalOutcome.rejected e = GoalOutcome.rejected) ∧
    (∀ e, goalStep GoalOutcome.succeeded e = GoalOutcome.succeeded) ∧
    (∀ e, goalStep GoalOutcome.failed e = GoalOutcome.failed) :=
  ⟨rfl, rfl, fun e => by cases e <;> rfl, fun e => by cases e <;> rfl,
   fun e => by cases e <;> rfl⟩

/-- C10: a detection notification with an empty candidate list leaves the
node state unchanged and performs no action at all — in particular no
transform lookup, no setpoint change and no timer creation. -/
theorem empty_detection_no_op (st : NodeState) (tf : TransformResult) :
    ControllerNode.detection_callback st ⟨[]⟩ tf = (st, []) := rfl
